import Mathlib

/-!
Verification development for the product-video-generator service.

The definitions below are a shallow embedding of the repository's Python
sources:

* `src/api_server.py` — in-memory job/video/keyframe stores persisted by
  `save_database`, the `update_job` / `create_job` store operations, the
  background pipeline `process_video_generation`, and the HTTP handlers
  `generate_video` and `delete_video`;
* `src/generate_video_with_keyframes.py` — the polling loop monitoring the
  external asynchronous generation operation;
* `src/process_video.py` and `src/download_from_s3.py` — the local
  post-processor and the object-store transfer helpers.

Python dictionaries are modelled as association lists with unique keys,
timestamps as natural-number ticks, and the filesystem as the list of
existing paths.  Outcomes of calls into external services (Bedrock, S3,
ffmpeg) are parameters of the pipeline (`PipelineEnv`); everything the
Python code itself does with those outcomes is translated faithfully,
including its exception handling: `SystemExit` raised by
`process_video`'s `sys.exit(1)` is distinguished from ordinary
`Exception`s because the server's `except Exception` handler does not
catch it.
-/

set_option autoImplicit false

namespace ProductVideo

universe u

variable {α : Type u}

/-- Lookup in an association list modelling a Python `dict` (`d.get(k)` /
`d[k]`). -/
def lookupA (k : String) : List (String × α) → Option α
  | [] => none
  | (k', v) :: rest => if k = k' then some v else lookupA k rest

/-- Key update modelling `d[k] = v`: replaces the binding when the key is
present, otherwise appends it (dict insertion order). -/
def insertA (k : String) (v : α) : List (String × α) → List (String × α)
  | [] => [(k, v)]
  | (k', v') :: rest =>
      if k = k' then (k, v) :: rest else (k', v') :: insertA k v rest

/-- Key removal modelling `del d[k]`. -/
def eraseA (k : String) : List (String × α) → List (String × α)
  | [] => []
  | (k', v') :: rest =>
      if k = k' then eraseA k rest else (k', v') :: eraseA k rest

/-- Number of bindings for key `k` (1 for a well-formed dict key that is
present, 0 otherwise). -/
def countKey (k : String) (l : List (String × α)) : Nat :=
  (l.filter (fun p => p.1 = k)).length

@[simp] theorem lookupA_insertA_self (k : String) (v : α)
    (l : List (String × α)) : lookupA k (insertA k v l) = some v := by
  induction l with
  | nil => simp [insertA, lookupA]
  | cons p rest ih =>
      by_cases h : k = p.1
      · simp [insertA, lookupA, h]
      · simp [insertA, lookupA, h, ih]

theorem lookupA_insertA_ne {k k' : String} (v : α) (l : List (String × α))
    (h : k ≠ k') : lookupA k (insertA k' v l) = lookupA k l := by
  induction l with
  | nil => simp [insertA, lookupA, h]
  | cons p rest ih =>
      by_cases h' : k' = p.1
      · subst h'
        simp [insertA, lookupA, h]
      · by_cases h'' : k = p.1
        · simp [insertA, lookupA, h', h'']
        · simp [insertA, lookupA, h', h'', ih]

@[simp] theorem lookupA_eraseA_self (k : String) (l : List (String × α)) :
    lookupA k (eraseA k l) = none := by
  induction l with
  | nil => simp [eraseA, lookupA]
  | cons p rest ih =>
      by_cases h : k = p.1
      · subst h
        simpa [eraseA] using ih
      · simp [eraseA, lookupA, h, ih]

theorem countKey_insertA_of_absent (k : String) (v : α)
    (l : List (String × α)) (h : countKey k l = 0) :
    countKey k (insertA k v l) = 1 := by
  induction l with
  | nil => simp [insertA, countKey]
  | cons p rest ih =>
      by_cases hk : k = p.1
      · subst hk
        simp [countKey, List.filter_cons] at h
      · have hpk : ¬ p.1 = k := fun h'' => hk h''.symm
        have h' : countKey k rest = 0 := by
          simpa [countKey, List.filter_cons, hpk] using h
        have h'' := ih h'
        simpa [insertA, hk, countKey, List.filter_cons, hpk] using h''

/-! ## Data model (`src/api_server.py`) -/

/-- `JobStatus` enum from `api_server.py`. -/
inductive JobStatus where
  | pending
  | uploading
  | generating
  | downloading
  | processing
  | completed
  | failed
deriving DecidableEq, Repr

/-- A record of `jobs_db` (the `Job` pydantic model / the dict built by
`create_job`).  Timestamps are clock ticks. -/
structure Job where
  job_id : String
  product_name : String
  status : JobStatus
  progress : Nat
  message : String
  created_at : Nat
  updated_at : Nat
  video_url : Option String
  error : Option String
deriving DecidableEq, Repr

/-- A record of `videos_db` (the dict stored by the pipeline on
completion). -/
structure VideoInfo where
  video_id : String
  product_name : String
  prompt : String
  status : String
  created_at : Nat
  final_video_path : String
  original_video_path : String
  start_keyframe : String
  end_keyframe : Option String
  job_id : String
  s3_uri : Option String
deriving DecidableEq, Repr

/-- A record of `keyframes_db` (`product_name -> {start_frame, end_frame,
uploaded_at}`).  `start_frame` is an `Option` because the pipeline reads it
with `.get("start_frame")` and checks truthiness. -/
structure KeyframeEntry where
  start_frame : Option String
  end_frame : Option String
  uploaded_at : Nat
deriving DecidableEq, Repr

/-- Contents of `database.json` written by `save_database`. -/
structure DatabaseSnapshot where
  jobs : List (String × Job)
  videos : List (String × VideoInfo)
  keyframes : List (String × KeyframeEntry)
  last_updated : Nat
deriving DecidableEq, Repr

/-- `VideoSettings` pydantic model. -/
structure VideoSettings where
  aspect_ratio : String
  duration : String
  resolution : String
  loop : Bool
  region : String
deriving DecidableEq, Repr

/-- Whole observable server state: the three module-level dicts, the
persisted snapshot (`database.json`), the set of existing files under the
videos directory, and the wall clock. -/
structure ServerState where
  jobs_db : List (String × Job)
  videos_db : List (String × VideoInfo)
  keyframes_db : List (String × KeyframeEntry)
  snapshot : Option DatabaseSnapshot
  files : List String
  now : Nat
deriving DecidableEq, Repr

/-- `VIDEOS_DIR` (`/app/data/videos`). -/
def videosDir : String := "/app/data/videos"

/-- `save_database()`: serialize the three dicts (plus `last_updated`) to
`database.json`. -/
def save_database (s : ServerState) : ServerState :=
  let snap : DatabaseSnapshot :=
    ⟨s.jobs_db, s.videos_db, s.keyframes_db, s.now⟩
  { s with snapshot := some snap }

/-- Python truthiness of an `Optional[str]`: `None` and `""` are falsy. -/
def strTruthy : Option String → Bool
  | none => false
  | some t => !(t == "")

/-- `create_job(product_name)`: insert a fresh PENDING job and persist.
The generated UUID is passed in as `job_id`. -/
def create_job (s : ServerState) (job_id product_name : String) :
    ServerState :=
  let j : Job :=
    { job_id := job_id
      product_name := product_name
      status := JobStatus.pending
      progress := 0
      message := "Job created"
      created_at := s.now
      updated_at := s.now
      video_url := none
      error := none }
  save_database { s with jobs_db := insertA job_id j s.jobs_db }

/-- `update_job(job_id, status, progress, message, error=None)`:
if the job id is present, overwrite status/progress/message, refresh
`updated_at`, overwrite `error` only when the argument is truthy, and
persist; otherwise do nothing at all. -/
def update_job (s : ServerState) (job_id : String) (status : JobStatus)
    (progress : Nat) (message : String) (error : Option String) :
    ServerState :=
  match lookupA job_id s.jobs_db with
  | none => s
  | some j =>
      let j' : Job :=
        { j with
            status := status
            progress := progress
            message := message
            updated_at := s.now
            error := if strTruthy error then error else j.error }
      save_database { s with jobs_db := insertA job_id j' s.jobs_db }

/-- `jobs_db[job_id]["video_url"] = url` (direct mutation in the pipeline's
completion block; the job is always present there). -/
def setVideoUrl (job_id url : String) (l : List (String × Job)) :
    List (String × Job) :=
  match lookupA job_id l with
  | none => l
  | some j => insertA job_id { j with video_url := some url } l

/-! ## Polling monitor (`src/generate_video_with_keyframes.py`, lines
174-209) -/

/-- One response of `bedrock.get_async_invoke`: the `status` string, the
declared output location
(`outputDataConfig.s3OutputDataConfig.s3Uri`), and the optional
`failureMessage`. -/
structure StatusResponse where
  status : String
  outputUri : String
  failureMessage : Option String
deriving DecidableEq, Repr

/-- Observable actions of the monitoring loop: a status query
(`get_async_invoke`), the status-change report
(`print(f"[{elapsed}s] Status: ...")`), and `time.sleep(15)`. -/
inductive PollEvent where
  | query (status : String)
  | statusReport (status : String)
  | sleepPoll (seconds : Nat)
deriving DecidableEq, Repr

/-- The `while True` monitoring loop, driven by the (finite prefix of the)
sequence of external status responses.  Returns the emitted events
together with the Python return value: `none` while the responses are
exhausted without a terminal status (the real loop would keep polling),
`some r` when the loop returns, where `r` is `some uri` on `Completed`
and `none` on `Failed`. -/
def pollLoop (last : Option String) :
    List StatusResponse → List PollEvent × Option (Option String)
  | [] => ([], none)
  | r :: rs =>
      let reports : List PollEvent :=
        if some r.status = last then [] else [PollEvent.statusReport r.status]
      if r.status = "Completed" then
        (PollEvent.query r.status :: reports, some (some r.outputUri))
      else if r.status = "Failed" then
        (PollEvent.query r.status :: reports, some none)
      else
        let rest := pollLoop (some r.status) rs
        (PollEvent.query r.status :: reports ++
          PollEvent.sleepPoll 15 :: rest.1, rest.2)

/-- The statuses the loop actually consumes: everything up to and
including the first terminal (`Completed`/`Failed`) status. -/
def consumedStatuses : List StatusResponse → List String
  | [] => []
  | r :: rs =>
      if r.status = "Completed" then [r.status]
      else if r.status = "Failed" then [r.status]
      else r.status :: consumedStatuses rs

/-- Spec-side description of duplicate suppression: the statuses at which
a change report is due, namely those differing from the previously
observed status. -/
def specChangeReports (last : Option String) : List String → List String
  | [] => []
  | st :: rest =>
      if some st = last then specChangeReports last rest
      else st :: specChangeReports (some st) rest

/-- Spec-side description of query/sleep alternation: one query per
consumed status with exactly one 15-second sleep between consecutive
queries, and a trailing sleep after the last query unless the loop
terminated there. -/
def specQuerySleeps (terminated : Bool) : List String → List PollEvent
  | [] => []
  | [st] => PollEvent.query st ::
      (if terminated then [] else [PollEvent.sleepPoll 15])
  | st :: rest => PollEvent.query st :: PollEvent.sleepPoll 15 ::
      specQuerySleeps terminated rest

/-- Is this event the status-change report? -/
def isReportEvent : PollEvent → Bool
  | PollEvent.statusReport _ => true
  | _ => false

@[simp] theorem isReportEvent_query (s : String) :
    isReportEvent (PollEvent.query s) = false := rfl

@[simp] theorem isReportEvent_statusReport (s : String) :
    isReportEvent (PollEvent.statusReport s) = true := rfl

@[simp] theorem isReportEvent_sleepPoll (n : Nat) :
    isReportEvent (PollEvent.sleepPoll n) = false := rfl

/-! ## Step adapters (`src/download_from_s3.py`, `src/process_video.py`)

`download_from_s3` and `upload_to_s3` wrap every failure in their own
`except Exception` and return `None`, so from the caller's point of view
they never raise; their success is an environment parameter.
`process_video` raises `FileNotFoundError` (an `Exception`) when its
input file is missing, and calls `sys.exit(1)` — raising `SystemExit`,
which is *not* an `Exception` — when the ffmpeg steps fail. -/

/-- Result of a call to `process_video`. -/
inductive ProcOutcome where
  | ok
  | fileNotFound (msg : String)
  | exitCalled
deriving DecidableEq, Repr

/-- `download_from_s3(s3_uri, local_path)`: on success the file appears at
`local_path` and the path is returned; on any internal failure the
exception is swallowed and `None` is returned, with no file written.
`ok` is the environment's verdict on the external transfer. -/
def download_from_s3 (files : List String) (ok : Bool)
    (local_path : String) : List String × Option String :=
  if ok then (local_path :: files, some local_path) else (files, none)

/-- `upload_to_s3(local_path, s3_uri)`: returns `None` when the local file
does not exist, otherwise the destination URI on success and `None` when
the external transfer fails (exception swallowed). -/
def upload_to_s3 (files : List String) (ok : Bool)
    (local_path s3_uri : String) : Option String :=
  if local_path ∈ files then (if ok then some s3_uri else none) else none

/-- `process_video(video_name, base_dir)`: raises `FileNotFoundError` when
`base_dir/video_name.mp4` is missing; otherwise runs the three ffmpeg
steps (intermediates are created and removed again), writing
`base_dir/video_name_final.mp4` on success and calling `sys.exit(1)` on
an ffmpeg error.  `ffmpegOk` is the environment's verdict on the ffmpeg
invocations. -/
def process_video (files : List String) (ffmpegOk : Bool)
    (video_name base_dir : String) : List String × ProcOutcome :=
  let input_file := base_dir ++ "/" ++ video_name ++ ".mp4"
  let final_file := base_dir ++ "/" ++ video_name ++ "_final.mp4"
  if input_file ∈ files then
    if ffmpegOk then (final_file :: files, ProcOutcome.ok)
    else (files, ProcOutcome.exitCalled)
  else (files, ProcOutcome.fileNotFound ("Error: " ++ input_file ++ " not found"))

/-! ## Background pipeline (`api_server.py`, `process_video_generation`) -/

/-- Outcomes of the external services during one pipeline run:
the return value of `generate_video_with_keyframes` (which catches all
its own `Exception`s and returns `None` on failure), and success of the
S3 download, the ffmpeg post-processing, and the S3 upload. -/
structure PipelineEnv where
  genResult : Option String
  downloadOk : Bool
  ffmpegOk : Bool
  uploadOk : Bool
deriving DecidableEq, Repr

/-- How the background execution unit finishes: `normal` when the
coroutine returns (success, or an `Exception` caught by the
`except Exception` handler), `systemExit` when a `SystemExit` raised by
`process_video`'s `sys.exit(1)` escapes the handler and the execution
unit. -/
inductive PipelineOutcome where
  | normal
  | systemExit
deriving DecidableEq, Repr

/-- `process_video_generation(...)`: the background pipeline, started on
state `s` (just after `create_job`).  Returns the list of store states
observable at each suspension point of the coroutine (after each
synchronous block), together with how the execution unit finished.
The `except Exception` handler is the two `update_job(..FAILED..)`
branches; the `sys.exit(1)` path bypasses it. -/
def process_video_generation (s : ServerState) (env : PipelineEnv)
    (job_id product_name prompt s3_bucket start_frame_path : String)
    (end_frame_path : Option String) (settings : VideoSettings) :
    List ServerState × PipelineOutcome :=
  let s1 := update_job s job_id JobStatus.generating 10
    "Generating video with AWS Bedrock..." none
  match env.genResult with
  | none =>
      let error_msg := "Video generation failed - no S3 URI returned"
      let s2 := update_job s1 job_id JobStatus.failed 0
        ("Error: " ++ error_msg) (some error_msg)
      ([s1, s2], PipelineOutcome.normal)
  | some _s3_uri =>
      let s2 := update_job s1 job_id JobStatus.downloading 50
        "Video generated! Downloading from S3..." none
      let job_id_short := job_id.take 8
      let video_base_name := product_name ++ "_" ++ job_id_short
      let output_path := videosDir ++ "/" ++ video_base_name ++ ".mp4"
      let dl := download_from_s3 s2.files env.downloadOk output_path
      let s2' := { s2 with files := dl.1 }
      let s3 := update_job s2' job_id JobStatus.processing 70
        "Applying boomerang effect..." none
      let pr := process_video s3.files env.ffmpegOk video_base_name videosDir
      let s3' := { s3 with files := pr.1 }
      match pr.2 with
      | ProcOutcome.fileNotFound msg =>
          let s4 := update_job s3' job_id JobStatus.failed 0
            ("Error: " ++ msg) (some msg)
          ([s1, s2, s3, s4], PipelineOutcome.normal)
      | ProcOutcome.exitCalled =>
          ([s1, s2, s3'], PipelineOutcome.systemExit)
      | ProcOutcome.ok =>
          let final_video_path :=
            videosDir ++ "/" ++ video_base_name ++ "_final.mp4"
          let s4 := update_job s3' job_id JobStatus.processing 90
            "Uploading final video to S3..." none
          let final_s3_key := "product-videos/" ++ product_name ++ "/" ++
            toString s4.now ++ "/" ++ video_base_name ++ "_final.mp4"
          let final_s3_uri := "s3://" ++ s3_bucket ++ "/" ++ final_s3_key
          let uploaded_s3_uri :=
            upload_to_s3 s4.files env.uploadOk final_video_path final_s3_uri
          let urlJobs :=
            setVideoUrl job_id ("/api/videos/download/" ++ job_id) s4.jobs_db
          let s5 := { s4 with jobs_db := urlJobs }
          let s6 := update_job s5 job_id JobStatus.completed 100
            "Video processing completed!" none
          let created_at := match lookupA job_id s6.jobs_db with
            | some j => j.created_at
            | none => 0
          let vinfo : VideoInfo :=
            { video_id := job_id
              product_name := product_name
              prompt := prompt
              status := "completed"
              created_at := created_at
              final_video_path := final_video_path
              original_video_path := output_path
              start_keyframe := start_frame_path
              end_keyframe := end_frame_path
              job_id := job_id
              s3_uri := uploaded_s3_uri }
          let s7 := save_database
            { s6 with videos_db := insertA job_id vinfo s6.videos_db }
          ([s1, s2, s3, s4, s7], PipelineOutcome.normal)

/-- A whole job run: `create_job` followed by its background pipeline.
The returned list holds every observable store state of the run, starting
with the state right after job creation. -/
def runJob (s_pre : ServerState) (env : PipelineEnv)
    (job_id product_name prompt s3_bucket start_frame_path : String)
    (end_frame_path : Option String) (settings : VideoSettings) :
    List ServerState × PipelineOutcome :=
  let s0 := create_job s_pre job_id product_name
  let r := process_video_generation s0 env job_id product_name prompt
    s3_bucket start_frame_path end_frame_path settings
  (s0 :: r.1, r.2)

/-! ## HTTP handlers (`api_server.py`: `generate_video`, `delete_video`) -/

/-- An `HTTPException(status_code, detail)`. -/
structure HttpError where
  code : Nat
  detail : String
deriving DecidableEq, Repr

/-- Body of `POST /api/videos/generate`. -/
structure VideoGenerationRequest where
  product_name : String
  prompt : String
  s3_bucket : String
  settings : VideoSettings
deriving DecidableEq, Repr

/-- Success body of `POST /api/videos/generate`. -/
structure GenerateResponse where
  success : Bool
  job_id : String
  message : String
deriving DecidableEq, Repr

/-- The background task descriptor queued by
`background_tasks.add_task(process_video_generation, ...)`. -/
structure BackgroundTask where
  job_id : String
  product_name : String
  prompt : String
  s3_bucket : String
  start_frame_path : String
  end_frame_path : Option String
  settings : VideoSettings
deriving DecidableEq, Repr

/-- Lexicographic code-point order on character lists (the order Python
uses to compare strings). -/
def charListLt : List Char → List Char → Bool
  | _, [] => false
  | [], _ :: _ => true
  | c :: cs, d :: ds =>
      Nat.blt c.toNat d.toNat ||
        (c.toNat == d.toNat && charListLt cs ds)

/-- Python's `<` on strings. -/
def strLt (a b : String) : Bool := charListLt a.data b.data

/-- Insert into an ascending list of strings (helper for `sorted`). -/
def insertSorted (x : String) : List String → List String
  | [] => [x]
  | y :: ys => if strLt y x then y :: insertSorted x ys else x :: y :: ys

/-- Python's `sorted` on a list of strings. -/
def sortStrings : List String → List String
  | [] => []
  | x :: xs => insertSorted x (sortStrings xs)

/-- The `available_list` string interpolated into the unknown-product
error: `", ".join(sorted(keyframes_db.keys())) if keyframes_db else
"none"`. -/
def availableProducts (keyframes : List (String × KeyframeEntry)) : String :=
  if keyframes.isEmpty then "none"
  else String.intercalate ", " (sortStrings (keyframes.map (fun p => p.1)))

/-- `POST /api/videos/generate` (`generate_video`): validates the product
against `keyframes_db`, creates the job, and queues the background task.
The fresh UUID is passed in as `fresh_job_id`; `tasks` is the
`BackgroundTasks` queue. -/
def generate_video (s : ServerState) (tasks : List BackgroundTask)
    (req : VideoGenerationRequest) (fresh_job_id : String) :
    ServerState × List BackgroundTask × Except HttpError GenerateResponse :=
  match lookupA req.product_name s.keyframes_db with
  | none =>
      (s, tasks, Except.error
        ⟨400, "No keyframes found for product: " ++ req.product_name ++
          ". Please upload keyframes with this product name first. " ++
          "Available products: " ++ availableProducts s.keyframes_db⟩)
  | some keyframe_data =>
      match keyframe_data.start_frame with
      | none =>
          (s, tasks, Except.error
            ⟨400, "No start frame found for product: " ++ req.product_name ++
              ". Please upload keyframes."⟩)
      | some start_frame_path =>
          if start_frame_path = "" then
            (s, tasks, Except.error
              ⟨400, "No start frame found for product: " ++ req.product_name ++
                ". Please upload keyframes."⟩)
          else
            let s' := create_job s fresh_job_id req.product_name
            let task : BackgroundTask :=
              { job_id := fresh_job_id
                product_name := req.product_name
                prompt := req.prompt
                s3_bucket := req.s3_bucket
                start_frame_path := start_frame_path
                end_frame_path := keyframe_data.end_frame
                settings := req.settings }
            (s', tasks ++ [task],
              Except.ok ⟨true, fresh_job_id, "Video generation started"⟩)

/-- `DELETE /api/videos/{video_id}` (`delete_video`): removes the
`videos_db` record, persists, and unlinks the original and final files if
they exist; `jobs_db` is untouched. -/
def delete_video (s : ServerState) (video_id : String) :
    ServerState × Except HttpError String :=
  match lookupA video_id s.videos_db with
  | none => (s, Except.error ⟨404, "Video not found"⟩)
  | some video_info =>
      let s1 := save_database { s with videos_db := eraseA video_id s.videos_db }
      let files1 :=
        s1.files.filter (fun q => !(q == video_info.original_video_path))
      let files2 :=
        files1.filter (fun q => !(q == video_info.final_video_path))
      ({ s1 with files := files2 },
       Except.ok ("Video " ++ video_info.product_name ++ " deleted"))

/-- A fresh server state (no jobs, videos, keyframes, files, or snapshot),
used for concrete evaluations. -/
def emptyState : ServerState :=
  { jobs_db := []
    videos_db := []
    keyframes_db := []
    snapshot := none
    files := []
    now := 0 }

/-- The default `VideoSettings`. -/
def defaultSettings : VideoSettings :=
  { aspect_ratio := "16:9"
    duration := "5s"
    resolution := "720p"
    loop := false
    region := "us-west-2" }

/-! ## Store-level lemmas -/

@[simp] theorem save_database_jobs_db (s : ServerState) :
    (save_database s).jobs_db = s.jobs_db := rfl

@[simp] theorem save_database_videos_db (s : ServerState) :
    (save_database s).videos_db = s.videos_db := rfl

@[simp] theorem save_database_files (s : ServerState) :
    (save_database s).files = s.files := rfl

@[simp] theorem save_database_now (s : ServerState) :
    (save_database s).now = s.now := rfl

@[simp] theorem create_job_videos_db (s : ServerState) (i p : String) :
    (create_job s i p).videos_db = s.videos_db := rfl

@[simp] theorem create_job_files (s : ServerState) (i p : String) :
    (create_job s i p).files = s.files := rfl

@[simp] theorem create_job_now (s : ServerState) (i p : String) :
    (create_job s i p).now = s.now := rfl

@[simp] theorem update_job_videos_db (s : ServerState) (job_id : String)
    (st : JobStatus) (p : Nat) (m : String) (err : Option String) :
    (update_job s job_id st p m err).videos_db = s.videos_db := by
  rcases h : lookupA job_id s.jobs_db with _ | j <;> simp [update_job, h]

@[simp] theorem update_job_files (s : ServerState) (job_id : String)
    (st : JobStatus) (p : Nat) (m : String) (err : Option String) :
    (update_job s job_id st p m err).files = s.files := by
  rcases h : lookupA job_id s.jobs_db with _ | j <;> simp [update_job, h]

@[simp] theorem update_job_now (s : ServerState) (job_id : String)
    (st : JobStatus) (p : Nat) (m : String) (err : Option String) :
    (update_job s job_id st p m err).now = s.now := by
  rcases h : lookupA job_id s.jobs_db with _ | j <;> simp [update_job, h]

/-- `update_job` on a present job: the record is overwritten field by
field, with `error` kept unless the argument is truthy. -/
theorem update_job_found (s : ServerState) (job_id : String)
    (st : JobStatus) (p : Nat) (m : String) (err : Option String) (j : Job)
    (h : lookupA job_id s.jobs_db = some j) :
    lookupA job_id (update_job s job_id st p m err).jobs_db =
      some { j with
        status := st
        progress := p
        message := m
        updated_at := s.now
        error := if strTruthy err then err else j.error } := by
  simp [update_job, h, save_database]

/-- C7: calling the job-store update operation with a job id that is not
in the store returns without raising and leaves the whole server state —
every job record and the persisted snapshot — unchanged. -/
theorem c7_update_unknown_job_is_noop (s : ServerState) (job_id : String)
    (st : JobStatus) (p : Nat) (m : String) (err : Option String)
    (h : lookupA job_id s.jobs_db = none) :
    update_job s job_id st p m err = s := by
  simp [update_job, h]

/-- Witness for C7 at a concrete store. -/
theorem c7_update_unknown_job_is_noop_witness :
    update_job emptyState "missing-job" JobStatus.failed 0 "msg" (some "e") =
      emptyState :=
  c7_update_unknown_job_is_noop emptyState "missing-job" JobStatus.failed 0
    "msg" (some "e") rfl

/-- C3: a generation request whose product id is not in the keyframe
registry fails synchronously with a not-found error whose message
enumerates the currently known product identifiers, creates no job
record, and schedules no background task (the state and task queue are
returned unchanged). -/
theorem c3_unknown_product_rejected_synchronously (s : ServerState)
    (tasks : List BackgroundTask) (req : VideoGenerationRequest)
    (fresh_job_id : String)
    (h : lookupA req.product_name s.keyframes_db = none) :
    generate_video s tasks req fresh_job_id =
      (s, tasks, Except.error
        ⟨400, "No keyframes found for product: " ++ req.product_name ++
          ". Please upload keyframes with this product name first. " ++
          "Available products: " ++ availableProducts s.keyframes_db⟩) := by
  simp [generate_video, h]

/-- A concrete registry state knowing products `watch` and `lamp`, used
by the C3 witness. -/
def kfStateW : ServerState :=
  { emptyState with keyframes_db :=
      [("watch", ⟨some "/k/ws.png", none, 0⟩),
       ("lamp", ⟨some "/k/ls.png", none, 0⟩)] }

/-- Witness for C3: a registry knowing products `lamp` and `watch`,
queried for `gadget`. -/
theorem c3_unknown_product_rejected_synchronously_witness :
    generate_video kfStateW [] ⟨"gadget", "spin", "bkt", defaultSettings⟩
        "job-1" =
      (kfStateW, [], Except.error
        ⟨400, "No keyframes found for product: gadget. " ++
          "Please upload keyframes with this product name first. " ++
          "Available products: lamp, watch"⟩) := by
  have h := c3_unknown_product_rejected_synchronously kfStateW []
    ⟨"gadget", "spin", "bkt", defaultSettings⟩ "job-1" (by decide)
  rw [h]
  have hmsg : "No keyframes found for product: " ++ "gadget" ++
      ". Please upload keyframes with this product name first. " ++
      "Available products: " ++ availableProducts kfStateW.keyframes_db =
      "No keyframes found for product: gadget. " ++
        "Please upload keyframes with this product name first. " ++
        "Available products: lamp, watch" := by decide
  rw [hmsg]

/-- C9: deleting a VideoArtifact by id removes the record from the video
registry and unlinks its original and final backing files, while the job
store — hence the originating job record with its state, progress, error
and video_url — is left unchanged. -/
theorem c9_delete_artifact_preserves_job (s : ServerState)
    (video_id : String) (vi : VideoInfo)
    (h : lookupA video_id s.videos_db = some vi) :
    (delete_video s video_id).2 =
        Except.ok ("Video " ++ vi.product_name ++ " deleted")
    ∧ lookupA video_id (delete_video s video_id).1.videos_db = none
    ∧ vi.original_video_path ∉ (delete_video s video_id).1.files
    ∧ vi.final_video_path ∉ (delete_video s video_id).1.files
    ∧ (delete_video s video_id).1.jobs_db = s.jobs_db := by
  refine ⟨?_, ?_, ?_, ?_, ?_⟩ <;>
    simp [delete_video, h, save_database, List.mem_filter]

/-- A concrete artifact record used by the C9 witness. -/
def videoW : VideoInfo :=
  ⟨"j1", "watch", "spin", "completed", 0,
    "/app/data/videos/watch_j1_final.mp4",
    "/app/data/videos/watch_j1.mp4", "/k/ws.png", none, "j1",
    some "s3://bkt/f.mp4"⟩

/-- A concrete store holding one artifact and its backing files, used by
the C9 witness. -/
def delStateW : ServerState :=
  { emptyState with
      videos_db := [("j1", videoW)]
      files := ["/app/data/videos/watch_j1.mp4",
        "/app/data/videos/watch_j1_final.mp4"] }

/-- Witness for C9 at a concrete store holding one artifact. -/
theorem c9_delete_artifact_preserves_job_witness :
    (delete_video delStateW "j1").2 =
        Except.ok ("Video " ++ videoW.product_name ++ " deleted")
    ∧ lookupA "j1" (delete_video delStateW "j1").1.videos_db = none
    ∧ videoW.original_video_path ∉ (delete_video delStateW "j1").1.files
    ∧ videoW.final_video_path ∉ (delete_video delStateW "j1").1.files
    ∧ (delete_video delStateW "j1").1.jobs_db = delStateW.jobs_db :=
  c9_delete_artifact_preserves_job delStateW "j1" videoW (by decide)

/-- C10: updating an existing job with an error argument of `None` or the
empty string keeps the previous `error` value; an error once set to a
non-empty string is never cleared by any later update; and a failure
update whose message is the empty string leaves `error` unset. -/
theorem c10_update_preserves_error_unless_nonempty (s : ServerState)
    (job_id : String) (st : JobStatus) (p : Nat) (m : String) (j : Job)
    (h : lookupA job_id s.jobs_db = some j) :
    (∀ err, err = none ∨ err = some "" →
      ∃ j', lookupA job_id (update_job s job_id st p m err).jobs_db = some j'
        ∧ j'.error = j.error)
    ∧ (∀ err e, j.error = some e → e ≠ "" →
      ∃ j' e', lookupA job_id (update_job s job_id st p m err).jobs_db = some j'
        ∧ j'.error = some e' ∧ e' ≠ "")
    ∧ (j.error = none →
      ∃ j', lookupA job_id
          (update_job s job_id st p m (some "")).jobs_db = some j'
        ∧ j'.error = none) := by
  refine ⟨?_, ?_, ?_⟩
  · rintro err (rfl | rfl) <;>
      exact ⟨_, update_job_found s job_id st p m _ j h, by simp [strTruthy]⟩
  · intro err e he hne
    have hfound := update_job_found s job_id st p m err j h
    rcases err with _ | t
    · exact ⟨_, e, hfound, by simp [strTruthy, he], hne⟩
    · by_cases ht : t = ""
      · subst ht
        exact ⟨_, e, hfound, by simp [strTruthy, he], hne⟩
      · exact ⟨_, t, hfound, by simp [strTruthy, ht], ht⟩
  · intro hnone
    exact ⟨_, update_job_found s job_id st p m (some "") j h,
      by simp [strTruthy, hnone]⟩

/-- A concrete job record used by the C10 witness. -/
def jobW : Job :=
  { job_id := "j1"
    product_name := "watch"
    status := JobStatus.processing
    progress := 70
    message := "Applying boomerang effect..."
    created_at := 0
    updated_at := 0
    video_url := none
    error := none }

/-- Witness for C10: a failure update carrying an empty message on a job
with no error leaves `error` unset. -/
theorem c10_update_preserves_error_unless_nonempty_witness :
    (lookupA "j1"
      (update_job { emptyState with jobs_db := [("j1", jobW)] } "j1"
        JobStatus.failed 0 "Error: " (some "")).jobs_db).map Job.error =
      some none := by
  obtain ⟨j', h1, h2⟩ :=
    (c10_update_preserves_error_unless_nonempty
      { emptyState with jobs_db := [("j1", jobW)] } "j1" JobStatus.failed 0
      "Error: " jobW rfl).2.2 rfl
  rw [h1]
  simp [h2]

/-! ## Polling-monitor theorems (C2, C8) -/

theorem pollLoop_none_iff (last : Option String) (rs : List StatusResponse) :
    (pollLoop last rs).2 = none ↔
      ∀ r ∈ rs, r.status ≠ "Completed" ∧ r.status ≠ "Failed" := by
  induction rs generalizing last with
  | nil => simp [pollLoop]
  | cons r rs ih =>
      by_cases hc : r.status = "Completed"
      · simp [pollLoop, hc]
      · by_cases hf : r.status = "Failed"
        · simp [pollLoop, hc, hf]
        · simp [pollLoop, hc, hf, ih]

theorem pollLoop_first_completed (last : Option String)
    (pre : List StatusResponse) (r : StatusResponse)
    (post : List StatusResponse)
    (hpre : ∀ q ∈ pre, q.status ≠ "Completed" ∧ q.status ≠ "Failed")
    (hr : r.status = "Completed") :
    (pollLoop last (pre ++ r :: post)).2 = some (some r.outputUri) := by
  induction pre generalizing last with
  | nil => simp [pollLoop, hr]
  | cons q pre ih =>
      have hq := hpre q (List.mem_cons_self _ _)
      simp only [List.cons_append, pollLoop, hq.1, hq.2, if_false]
      simpa [hq.1, hq.2] using
        ih (some q.status) (fun q' hq' => hpre q' (List.mem_cons_of_mem _ hq'))

theorem pollLoop_first_failed (last : Option String)
    (pre : List StatusResponse) (r : StatusResponse)
    (post : List StatusResponse)
    (hpre : ∀ q ∈ pre, q.status ≠ "Completed" ∧ q.status ≠ "Failed")
    (hr : r.status = "Failed") :
    (pollLoop last (pre ++ r :: post)).2 = some none := by
  induction pre generalizing last with
  | nil =>
      have hrc : r.status ≠ "Completed" := by simp [hr]
      simp [pollLoop, hr, hrc]
  | cons q pre ih =>
      have hq := hpre q (List.mem_cons_self _ _)
      simp only [List.cons_append, pollLoop, hq.1, hq.2, if_false]
      simpa [hq.1, hq.2] using
        ih (some q.status) (fun q' hq' => hpre q' (List.mem_cons_of_mem _ hq'))

/-- C2 (amended): the polling loop terminates exactly when the queried
status is `Completed` or `Failed`; on `Completed` it returns the
operation's declared output location; on `Failed` it returns `None` — the
declared failure reason is only logged, not returned; any other status
causes polling to continue with no overall timeout (the result is still
pending however long the prefix of non-terminal statuses is). -/
theorem c2_poll_terminates_exactly_on_terminal_status :
    (∀ (last : Option String) (rs : List StatusResponse),
        (pollLoop last rs).2 = none ↔
          ∀ r ∈ rs, r.status ≠ "Completed" ∧ r.status ≠ "Failed")
    ∧ (∀ (last : Option String) (pre : List StatusResponse)
        (r : StatusResponse) (post : List StatusResponse),
        (∀ q ∈ pre, q.status ≠ "Completed" ∧ q.status ≠ "Failed") →
        r.status = "Completed" →
        (pollLoop last (pre ++ r :: post)).2 = some (some r.outputUri))
    ∧ (∀ (last : Option String) (pre : List StatusResponse)
        (r : StatusResponse) (post : List StatusResponse),
        (∀ q ∈ pre, q.status ≠ "Completed" ∧ q.status ≠ "Failed") →
        r.status = "Failed" →
        (pollLoop last (pre ++ r :: post)).2 = some none) :=
  ⟨pollLoop_none_iff, pollLoop_first_completed, pollLoop_first_failed⟩

/-- C2 counterexample: when the external operation reports `Failed` with
declared failure reason `"quota exceeded"`, the loop returns `None`
(`some none` in the model: it terminated with the Python value `None`),
not the declared failure reason. -/
theorem c2_failed_returns_none_not_reason :
    (pollLoop none [⟨"Failed", "s3://bkt/out/", some "quota exceeded"⟩]).2 =
        some none
    ∧ (pollLoop none
        [⟨"Failed", "s3://bkt/out/", some "quota exceeded"⟩]).2 ≠
        some (some "quota exceeded") := by
  refine ⟨by decide, by decide⟩

/-- Witness for C2: one non-terminal status followed by `Completed`
returns the declared output location. -/
theorem c2_poll_terminates_exactly_on_terminal_status_witness :
    (pollLoop none [⟨"InProgress", "", none⟩,
        ⟨"Completed", "s3://bkt/out/", none⟩]).2 =
      some (some "s3://bkt/out/") :=
  c2_poll_terminates_exactly_on_terminal_status.2.1 none
    [⟨"InProgress", "", none⟩] ⟨"Completed", "s3://bkt/out/", none⟩ []
    (by decide) rfl

theorem specQuerySleeps_cons_of_ne_nil (t : Bool) (st : String)
    (l : List String) (h : l ≠ []) :
    specQuerySleeps t (st :: l) =
      PollEvent.query st :: PollEvent.sleepPoll 15 :: specQuerySleeps t l := by
  cases l with
  | nil => cases h rfl
  | cons a as => rfl

theorem consumedStatuses_ne_nil (r : StatusResponse)
    (rs : List StatusResponse) : consumedStatuses (r :: rs) ≠ [] := by
  by_cases hc : r.status = "Completed"
  · simp [consumedStatuses, hc]
  · by_cases hf : r.status = "Failed"
    · simp [consumedStatuses, hc, hf]
    · simp [consumedStatuses, hc, hf]

theorem pollLoop_cons_completed (last : Option String) (r : StatusResponse)
    (rs : List StatusResponse) (hc : r.status = "Completed") :
    pollLoop last (r :: rs) =
      (PollEvent.query r.status ::
        (if some r.status = last then []
          else [PollEvent.statusReport r.status]),
       some (some r.outputUri)) := by
  simp [pollLoop, hc]

theorem pollLoop_cons_failed (last : Option String) (r : StatusResponse)
    (rs : List StatusResponse) (hc : r.status ≠ "Completed")
    (hf : r.status = "Failed") :
    pollLoop last (r :: rs) =
      (PollEvent.query r.status ::
        (if some r.status = last then []
          else [PollEvent.statusReport r.status]),
       some none) := by
  simp [pollLoop, hc, hf]

theorem pollLoop_cons_nonterminal (last : Option String)
    (r : StatusResponse) (rs : List StatusResponse)
    (hc : r.status ≠ "Completed") (hf : r.status ≠ "Failed") :
    pollLoop last (r :: rs) =
      (PollEvent.query r.status ::
        (if some r.status = last then []
          else [PollEvent.statusReport r.status]) ++
        PollEvent.sleepPoll 15 :: (pollLoop (some r.status) rs).1,
       (pollLoop (some r.status) rs).2) := by
  simp [pollLoop, hc, hf]

theorem consumedStatuses_cons_terminal (r : StatusResponse)
    (rs : List StatusResponse)
    (h : r.status = "Completed" ∨ r.status = "Failed") :
    consumedStatuses (r :: rs) = [r.status] := by
  rcases h with h | h
  · simp [consumedStatuses, h]
  · by_cases hc : r.status = "Completed" <;> simp [consumedStatuses, hc, h]

theorem consumedStatuses_cons_nonterminal (r : StatusResponse)
    (rs : List StatusResponse) (hc : r.status ≠ "Completed")
    (hf : r.status ≠ "Failed") :
    consumedStatuses (r :: rs) = r.status :: consumedStatuses rs := by
  simp [consumedStatuses, hc, hf]

theorem pollLoop_filter_reports (last : Option String)
    (rs : List StatusResponse) :
    (pollLoop last rs).1.filter isReportEvent =
      (specChangeReports last (consumedStatuses rs)).map
        PollEvent.statusReport := by
  induction rs generalizing last with
  | nil => simp [pollLoop, consumedStatuses, specChangeReports]
  | cons r rs ih =>
      by_cases hc : r.status = "Completed"
      · rw [pollLoop_cons_completed last r rs hc,
          consumedStatuses_cons_terminal r rs (Or.inl hc)]
        by_cases hl : some r.status = last
        · subst hl
          simp [specChangeReports, isReportEvent, List.filter_cons]
        · simp [specChangeReports, isReportEvent, List.filter_cons, hl]
      · by_cases hf : r.status = "Failed"
        · rw [pollLoop_cons_failed last r rs hc hf,
            consumedStatuses_cons_terminal r rs (Or.inr hf)]
          by_cases hl : some r.status = last
          · subst hl
            simp [specChangeReports, isReportEvent, List.filter_cons]
          · simp [specChangeReports, isReportEvent, List.filter_cons, hl]
        · rw [pollLoop_cons_nonterminal last r rs hc hf,
            consumedStatuses_cons_nonterminal r rs hc hf]
          by_cases hl : some r.status = last
          · subst hl
            simp [specChangeReports, isReportEvent, List.filter_cons,
              List.filter_append, ih]
          · simp [specChangeReports, isReportEvent, List.filter_cons,
              List.filter_append, hl, ih]

theorem pollLoop_filter_querySleeps (last : Option String)
    (rs : List StatusResponse) :
    (pollLoop last rs).1.filter (fun e => !(isReportEvent e)) =
      specQuerySleeps (pollLoop last rs).2.isSome (consumedStatuses rs) := by
  induction rs generalizing last with
  | nil => simp [pollLoop, consumedStatuses, specQuerySleeps]
  | cons r rs ih =>
      by_cases hc : r.status = "Completed"
      · rw [pollLoop_cons_completed last r rs hc,
          consumedStatuses_cons_terminal r rs (Or.inl hc)]
        by_cases hl : some r.status = last <;>
          simp [specQuerySleeps, isReportEvent, List.filter_cons, hl]
      · by_cases hf : r.status = "Failed"
        · rw [pollLoop_cons_failed last r rs hc hf,
            consumedStatuses_cons_terminal r rs (Or.inr hf)]
          by_cases hl : some r.status = last <;>
            simp [specQuerySleeps, isReportEvent, List.filter_cons, hl]
        · cases rs with
          | nil =>
              rw [pollLoop_cons_nonterminal last r [] hc hf,
                consumedStatuses_cons_nonterminal r [] hc hf]
              by_cases hl : some r.status = last <;>
                simp [pollLoop, consumedStatuses, specQuerySleeps,
                  isReportEvent, List.filter_cons, List.filter_append, hl]
          | cons r2 rs2 =>
              rw [pollLoop_cons_nonterminal last r (r2 :: rs2) hc hf,
                consumedStatuses_cons_nonterminal r (r2 :: rs2) hc hf,
                specQuerySleeps_cons_of_ne_nil _ _ _
                  (consumedStatuses_ne_nil r2 rs2)]
              by_cases hl : some r.status = last
              · subst hl
                simpa [List.filter_cons, List.filter_append] using
                  ih (some r.status)
              · simpa [List.filter_cons, List.filter_append, hl] using
                  ih (some r.status)

/-- C8: the status-change report is emitted exactly at the queries whose
status differs from the last observed one (consecutive identical statuses
produce no duplicate report), and the non-report events alternate as one
query per consumed status with exactly one 15-second sleep between
consecutive queries (the loop sleeps the poll interval before each
subsequent query; after a terminal status there is no further sleep). -/
theorem c8_report_on_change_and_sleep_between_queries
    (last : Option String) (rs : List StatusResponse) :
    (pollLoop last rs).1.filter isReportEvent =
        (specChangeReports last (consumedStatuses rs)).map
          PollEvent.statusReport
    ∧ (pollLoop last rs).1.filter (fun e => !(isReportEvent e)) =
        specQuerySleeps (pollLoop last rs).2.isSome (consumedStatuses rs) :=
  ⟨pollLoop_filter_reports last rs, pollLoop_filter_querySleeps last rs⟩

/-! ## Pipeline theorems (C1, C4, C5, C6) -/

/-- The pipeline's fileNotFound message is never the empty string, so the
FAILED update always sets `error`. -/
theorem error_msg_ne_empty (x : String) :
    "Error: " ++ x ++ " not found" ≠ "" := by
  intro h
  have hlen := congrArg String.length h
  rw [String.length_append, String.length_append] at hlen
  have h7 : "Error: ".length = 7 := rfl
  have h10 : " not found".length = 10 := rfl
  have h0 : "".length = 0 := rfl
  rw [h7, h10, h0] at hlen
  omega

/-- C1 (bug evidence): when the ffmpeg post-processing step fails, the
`SystemExit` raised by `process_video`'s `sys.exit(1)` escapes the
pipeline's `except Exception` handler and the background execution unit;
the job is left at PROCESSING with progress 70 and no error — it never
transitions to FAILED. -/
theorem c1_post_processing_failure_escapes :
    (runJob emptyState ⟨some "s3://bkt/out/", true, false, true⟩
        "job-12345678" "watch" "slow rotation" "bkt" "/k/ws.png" none
        defaultSettings).2 = PipelineOutcome.systemExit
    ∧ ((runJob emptyState ⟨some "s3://bkt/out/", true, false, true⟩
          "job-12345678" "watch" "slow rotation" "bkt" "/k/ws.png" none
          defaultSettings).1.map (fun s' =>
            (lookupA "job-12345678" s'.jobs_db).map
              (fun j => (j.status, j.progress, j.error)))) =
        [some (JobStatus.pending, 0, none),
         some (JobStatus.generating, 10, none),
         some (JobStatus.downloading, 50, none),
         some (JobStatus.processing, 70, none)] :=
  ⟨by decide, by decide⟩

/-- C5 (bug evidence): when the archival upload fails (`upload_to_s3`
returns `None`), the pipeline does not short-circuit to FAILED: the job
still runs through the full success order PENDING(0) → GENERATING(10) →
DOWNLOADING(50) → PROCESSING(70) → PROCESSING(90) → COMPLETED(100), and
the published artifact records `s3_uri = None`. -/
theorem c5_upload_failure_reaches_completed :
    ((runJob emptyState ⟨some "s3://bkt/out/", true, true, false⟩
        "job-12345678" "watch" "slow rotation" "bkt" "/k/ws.png" none
        defaultSettings).1.map (fun s' =>
          (lookupA "job-12345678" s'.jobs_db).map
            (fun j => (j.status, j.progress)))) =
      [some (JobStatus.pending, 0), some (JobStatus.generating, 10),
       some (JobStatus.downloading, 50), some (JobStatus.processing, 70),
       some (JobStatus.processing, 90), some (JobStatus.completed, 100)]
    ∧ (lookupA "job-12345678"
        ((runJob emptyState ⟨some "s3://bkt/out/", true, true, false⟩
            "job-12345678" "watch" "slow rotation" "bkt" "/k/ws.png" none
            defaultSettings).1.getLastD emptyState).videos_db).map
        (fun v => v.s3_uri) = some none :=
  ⟨by decide, by decide⟩

/-- C4: at every observable state of a job run, `video_url` and `error`
are unset in non-terminal states; COMPLETED implies no error, progress
100, a result reference set, and exactly one VideoArtifact keyed by the
job id; FAILED implies error set and progress 0. -/
theorem c4_terminal_state_invariants
    (s_pre : ServerState) (env : PipelineEnv)
    (job_id product_name prompt s3_bucket start_frame_path : String)
    (end_frame_path : Option String) (settings : VideoSettings)
    (hfresh : countKey job_id s_pre.videos_db = 0) :
    ∀ s' ∈ (runJob s_pre env job_id product_name prompt s3_bucket
        start_frame_path end_frame_path settings).1,
      ∀ j, lookupA job_id s'.jobs_db = some j →
        ((j.status ≠ JobStatus.completed ∧ j.status ≠ JobStatus.failed) →
            j.video_url = none ∧ j.error = none)
        ∧ (j.status = JobStatus.completed →
            j.error = none ∧ j.progress = 100 ∧ j.video_url ≠ none
              ∧ countKey job_id s'.videos_db = 1)
        ∧ (j.status = JobStatus.failed → j.error ≠ none ∧ j.progress = 0) := by
  obtain ⟨gen, dl, ff, up⟩ := env
  rcases gen with _ | uri
  · intro s' hs' j hj
    simp [runJob, process_video_generation] at hs'
    rcases hs' with rfl | rfl | rfl <;>
      (simp [create_job, update_job, save_database, setVideoUrl,
        strTruthy] at hj; subst hj;
       simp [strTruthy, countKey_insertA_of_absent, hfresh,
         error_msg_ne_empty])
  · cases dl
    · by_cases hmem : (videosDir ++ "/" ++ (product_name ++ "_" ++
          String.take job_id 8) ++ ".mp4") ∈ s_pre.files
      · cases ff
        · intro s' hs' j hj
          simp [runJob, process_video_generation, download_from_s3,
            process_video, hmem] at hs'
          rcases hs' with rfl | rfl | rfl | rfl <;>
            (simp [create_job, update_job, save_database, setVideoUrl,
              strTruthy] at hj; subst hj;
             simp [strTruthy, countKey_insertA_of_absent, hfresh,
               error_msg_ne_empty])
        · intro s' hs' j hj
          simp [runJob, process_video_generation, download_from_s3,
            process_video, hmem] at hs'
          rcases hs' with rfl | rfl | rfl | rfl | rfl | rfl <;>
            (simp [create_job, update_job, save_database, setVideoUrl,
              strTruthy] at hj; subst hj;
             simp [strTruthy, countKey_insertA_of_absent, hfresh,
               error_msg_ne_empty])
      · intro s' hs' j hj
        simp [runJob, process_video_generation, download_from_s3,
          process_video, hmem] at hs'
        rcases hs' with rfl | rfl | rfl | rfl | rfl <;>
          (simp [create_job, update_job, save_database, setVideoUrl,
            strTruthy] at hj; subst hj;
           simp [strTruthy, countKey_insertA_of_absent, hfresh,
             error_msg_ne_empty])
    · cases ff
      · intro s' hs' j hj
        simp [runJob, process_video_generation, download_from_s3,
          process_video] at hs'
        rcases hs' with rfl | rfl | rfl | rfl <;>
          (simp [create_job, update_job, save_database, setVideoUrl,
            strTruthy] at hj; subst hj;
           simp [strTruthy, countKey_insertA_of_absent, hfresh,
             error_msg_ne_empty])
      · intro s' hs' j hj
        simp [runJob, process_video_generation, download_from_s3,
          process_video] at hs'
        rcases hs' with rfl | rfl | rfl | rfl | rfl | rfl <;>
          (simp [create_job, update_job, save_database, setVideoUrl,
            strTruthy] at hj; subst hj;
           simp [strTruthy, countKey_insertA_of_absent, hfresh,
             error_msg_ne_empty])

/-- The COMPLETED job record reached by an all-success run started from
an empty store (used by the C4 witness). -/
def jobCompletedW : Job :=
  { job_id := "job-12345678"
    product_name := "watch"
    status := JobStatus.completed
    progress := 100
    message := "Video processing completed!"
    created_at := 0
    updated_at := 0
    video_url := some "/api/videos/download/job-12345678"
    error := none }

/-- Witness for C4: after an all-success run from the empty store, the
final (COMPLETED) state holds exactly one VideoArtifact keyed by the job
id. -/
theorem c4_terminal_state_invariants_witness :
    countKey "job-12345678"
      ((runJob emptyState ⟨some "s3://bkt/out/", true, true, true⟩
          "job-12345678" "watch" "slow rotation" "bkt" "/k/ws.png" none
          defaultSettings).1.getLastD emptyState).videos_db = 1 := by
  have h := c4_terminal_state_invariants emptyState
    ⟨some "s3://bkt/out/", true, true, true⟩ "job-12345678" "watch"
    "slow rotation" "bkt" "/k/ws.png" none defaultSettings (by decide)
  refine ((h _ ?_ jobCompletedW ?_).2.1 ?_).2.2.2
  · decide
  · decide
  · rfl

/-- C6: across the sequence of observable store states of a job run, the
job's progress is monotonically non-decreasing as long as its state is
not FAILED (a FAILED successor resets progress to 0 and is exempt). -/
theorem c6_progress_monotone_while_not_failed (s_pre : ServerState)
    (env : PipelineEnv)
    (job_id product_name prompt s3_bucket start_frame_path : String)
    (end_frame_path : Option String) (settings : VideoSettings) :
    List.Chain'
      (fun a b => ∀ j j', lookupA job_id a.jobs_db = some j →
        lookupA job_id b.jobs_db = some j' →
        j'.status ≠ JobStatus.failed → j.progress ≤ j'.progress)
      (runJob s_pre env job_id product_name prompt s3_bucket
        start_frame_path end_frame_path settings).1 := by
  obtain ⟨gen, dl, ff, up⟩ := env
  rcases gen with _ | uri
  · simp [runJob, process_video_generation, List.chain'_cons,
      List.chain'_singleton]
    repeat' apply And.intro
    all_goals
      (intro j j' hj hj'
       simp [create_job, update_job, save_database, setVideoUrl,
         strTruthy] at hj hj'
       subst hj; subst hj'; simp)
  · cases dl
    · by_cases hmem : (videosDir ++ "/" ++ (product_name ++ "_" ++
          String.take job_id 8) ++ ".mp4") ∈ s_pre.files
      · cases ff <;>
          (simp [runJob, process_video_generation, download_from_s3,
            process_video, hmem, List.chain'_cons, List.chain'_singleton]
           repeat' apply And.intro
           all_goals
             (intro j j' hj hj'
              simp [create_job, update_job, save_database, setVideoUrl,
                strTruthy] at hj hj'
              subst hj; subst hj'; simp))
      · simp [runJob, process_video_generation, download_from_s3,
          process_video, hmem, List.chain'_cons, List.chain'_singleton]
        repeat' apply And.intro
        all_goals
          (intro j j' hj hj'
           simp [create_job, update_job, save_database, setVideoUrl,
             strTruthy] at hj hj'
           subst hj; subst hj'; simp)
    · cases ff <;>
        (simp [runJob, process_video_generation, download_from_s3,
          process_video, List.chain'_cons, List.chain'_singleton]
         repeat' apply And.intro
         all_goals
           (intro j j' hj hj'
            simp [create_job, update_job, save_database, setVideoUrl,
              strTruthy] at hj hj'
            subst hj; subst hj'; simp))

/-- Witness for C6 on an all-success run from the empty store. -/
theorem c6_progress_monotone_while_not_failed_witness :
    List.Chain'
      (fun a b => ∀ j j', lookupA "job-12345678" a.jobs_db = some j →
        lookupA "job-12345678" b.jobs_db = some j' →
        j'.status ≠ JobStatus.failed → j.progress ≤ j'.progress)
      (runJob emptyState ⟨some "s3://bkt/out/", true, true, true⟩
        "job-12345678" "watch" "slow rotation" "bkt" "/k/ws.png" none
        defaultSettings).1 :=
  c6_progress_monotone_while_not_failed emptyState
    ⟨some "s3://bkt/out/", true, true, true⟩ "job-12345678" "watch"
    "slow rotation" "bkt" "/k/ws.png" none defaultSettings

end ProductVideo
